import Mathlib

/-!
Shallow embedding of the affiliate-website generation pipeline: the route
handler (image sourcing, Netlify deployment, AI content generation with a
deterministic fallback template, product-URL analysis, plan limits, and the
POST orchestrator) and the auth library's token verification.  External
effects (HTTP fetches, the generative model, the database) are modelled as
explicit outcome parameters; every function is total exactly where the
source wraps the effect in try/catch.
-/

/-! ## String-containment infrastructure

JavaScript's `String.prototype.includes` is modelled by a substring scan over
the character list of the string; `toLowerCase()` by a character-wise lowering.
-/

/-- `prefixOfList p l` is true when `p` is a prefix of `l` (character lists). -/
def prefixOfList : List Char → List Char → Bool
  | [], _ => true
  | _ :: _, [] => false
  | a :: as, b :: bs => a == b && prefixOfList as bs

/-- `subOfList p l` is true when `p` occurs contiguously inside `l`. -/
def subOfList (pat : List Char) : List Char → Bool
  | [] => prefixOfList pat []
  | c :: cs => prefixOfList pat (c :: cs) || subOfList pat cs

/-- Character-wise lowering, modelling JS `toLowerCase()` on the code points
the program actually tests (ASCII markup markers). -/
def lowerChars (l : List Char) : List Char := l.map Char.toLower

/-- Models JS `s.includes(pat)`. -/
def containsStr (s pat : String) : Bool := subOfList pat.data s.data

/-- Models JS `s.toLowerCase().includes(pat)` (the program always passes an
all-lowercase literal pattern). -/
def lowerIncludes (s pat : String) : Bool := subOfList pat.data (lowerChars s.data)

theorem prefixOfList_nil_right {p : List Char} (h : prefixOfList p [] = true) : p = [] := by
  cases p with
  | nil => rfl
  | cons a as => simp [prefixOfList] at h

theorem subOfList_nil_pat (l : List Char) : subOfList [] l = true := by
  induction l with
  | nil => rfl
  | cons c cs ih => simp [subOfList, prefixOfList]

theorem prefixOfList_refl (p : List Char) : prefixOfList p p = true := by
  induction p with
  | nil => rfl
  | cons a as ih => simp [prefixOfList, ih]

theorem prefixOfList_append {p xs : List Char} (ys : List Char)
    (h : prefixOfList p xs = true) : prefixOfList p (xs ++ ys) = true := by
  induction p generalizing xs with
  | nil => rfl
  | cons a as ih =>
    cases xs with
    | nil => simp [prefixOfList] at h
    | cons b bs =>
      simp only [prefixOfList, Bool.and_eq_true] at h
      simp only [List.cons_append, prefixOfList, Bool.and_eq_true]
      exact ⟨h.1, ih h.2⟩

theorem subOfList_of_prefixOfList {p l : List Char} (h : prefixOfList p l = true) :
    subOfList p l = true := by
  cases l with
  | nil => exact h
  | cons c cs => simp [subOfList, h]

theorem subOfList_append_right {p ys : List Char} (xs : List Char)
    (h : subOfList p ys = true) : subOfList p (xs ++ ys) = true := by
  induction xs with
  | nil => simpa using h
  | cons x xs ih => simp [subOfList, ih]

theorem subOfList_append_left {p xs : List Char} (ys : List Char)
    (h : subOfList p xs = true) : subOfList p (xs ++ ys) = true := by
  induction xs with
  | nil =>
    have : p = [] := prefixOfList_nil_right h
    subst this
    exact subOfList_nil_pat _
  | cons x xs ih =>
    simp only [subOfList, Bool.or_eq_true] at h
    rcases h with h | h
    · exact Bool.or_eq_true _ _ |>.mpr (Or.inl (prefixOfList_append _ h))
    · simp only [List.cons_append, subOfList, Bool.or_eq_true]
      exact Or.inr (ih h)

theorem subOfList_refl (p : List Char) : subOfList p p = true := by
  cases p with
  | nil => rfl
  | cons a as => simp [subOfList, prefixOfList_refl]

theorem string_data_append (s t : String) : (s ++ t).data = s.data ++ t.data :=
  String.data_append s t

theorem lowerChars_append (l m : List Char) :
    lowerChars (l ++ m) = lowerChars l ++ lowerChars m := by
  simp [lowerChars]

/-- Containment is preserved when text is appended on the right. -/
theorem containsStr_append_left {s p : String} (t : String)
    (h : containsStr s p = true) : containsStr (s ++ t) p = true := by
  simp only [containsStr, string_data_append]
  exact subOfList_append_left _ h

/-- A string always contains its own final segment. -/
theorem containsStr_append_self (s p : String) : containsStr (s ++ p) p = true := by
  simp only [containsStr, string_data_append]
  exact subOfList_append_right _ (subOfList_refl _)

/-- Case-blind containment is preserved when text is appended on the right. -/
theorem lowerIncludes_append_left {s p : String} (t : String)
    (h : lowerIncludes s p = true) : lowerIncludes (s ++ t) p = true := by
  simp only [lowerIncludes, string_data_append, lowerChars_append]
  exact subOfList_append_left _ h

/-! ## Shared JavaScript idioms -/

/-- Models JS `a || b` on strings: the empty string is falsy. -/
def jsOr (a b : String) : String := if a = "" then b else a

/-- Models JS `x?.y || null`: both a missing object and an empty-string field
collapse to `null`. -/
def jsOrNull (o : Option String) : Option String :=
  match o with
  | some s => if s = "" then none else some s
  | none => none

/-- Models JS `s.substring(0, n)`: the first `n` characters. -/
def jsSubstring (s : String) (n : Nat) : String := String.mk (s.data.take n)

theorem jsSubstring_length_le (s : String) (n : Nat) : (jsSubstring s n).length ≤ n := by
  simp only [jsSubstring, String.length, List.length_take]
  exact Nat.min_le_left _ _

/-! ## Asset Sourcer — `getUnsplashImages` / `generatePlaceholderImages` -/

/-- The asset shape built from each Unsplash photo (or the placeholder). -/
structure ImageAsset where
  url : String
  thumb : String
  alt : String
  credit : String
  download_url : Option String
deriving DecidableEq, Repr

/-- Outcome of the single Unsplash search attempt.  `noKey` models a missing
`UNSPLASH_ACCESS_KEY`; `fetchFail` any thrown error (network failure or a
malformed payload crashing the mapping); `httpNotOk` a non-2xx response
(thrown, then caught); `ok results` a parsed payload whose `results` array has
already been mapped field-by-field to `ImageAsset`. -/
inductive UnsplashOutcome where
  | noKey
  | fetchFail
  | httpNotOk
  | ok (results : List ImageAsset)
deriving DecidableEq

def placeholderUrl : String :=
  "https://images.unsplash.com/photo-1560472354-b33ff0c44a43?w=800&h=600&fit=crop&crop=center"

def placeholderThumb : String :=
  "https://images.unsplash.com/photo-1560472354-b33ff0c44a43?w=400&h=300&fit=crop&crop=center"

/-- `generatePlaceholderImages` from the route: a loop pushing `count` copies
of the fixed placeholder asset. -/
def generatePlaceholderImages (query : String) (count : Nat) : List ImageAsset :=
  List.replicate count
    { url := placeholderUrl
      thumb := placeholderThumb
      alt := query
      credit := "Professional stock photo"
      download_url := none }

/-- `getUnsplashImages` from the route: missing key, thrown error, or non-ok
response all fall back to placeholders; a successful response is returned as
the mapped `results` array, unchanged in length. -/
def getUnsplashImages (query : String) (count : Nat) (outcome : UnsplashOutcome) :
    List ImageAsset :=
  match outcome with
  | .noKey => generatePlaceholderImages query count
  | .fetchFail => generatePlaceholderImages query count
  | .httpNotOk => generatePlaceholderImages query count
  | .ok results => results

/-! ## Page Analyzer — `analyzeProductURL` -/

/-- The product summary extracted from a merchant page. -/
structure ProductSummary where
  title : String
  description : String
  price : String
  originalUrl : String
deriving DecidableEq, Repr

/-- The selector results cheerio yields on a fetched page.  `.text()` always
returns a string (empty when the selector matches nothing); `.attr(...)`
returns `undefined` when absent, which behaves identically to `""` under the
`||` chains the route uses, so both are modelled as the empty string. -/
structure PageData where
  titleTag : String
  h1First : String
  productTitleAttr : String
  metaDescription : String
  ogDescription : String
  pFirst : String
  priceTestId : String
  priceClassFirst : String
  priceClassAny : String
deriving DecidableEq

/-- Outcome of the single GET on the product URL: a thrown network error, a
non-ok status (thrown, then caught), or a parsed page. -/
inductive FetchOutcome where
  | networkError
  | httpNotOk
  | ok (page : PageData)
deriving DecidableEq

/-- The fixed summary returned from the catch block of `analyzeProductURL`. -/
def fallbackSummary (url : String) : ProductSummary :=
  { title := "Premium Product"
    description := "An amazing product that delivers exceptional value and results."
    price := "$99.99"
    originalUrl := url }

/-- `analyzeProductURL` from the route: per-field `||` chains over the
selector strategies, each field truncated independently. -/
def analyzeProductURL (url : String) (outcome : FetchOutcome) : ProductSummary :=
  match outcome with
  | .networkError => fallbackSummary url
  | .httpNotOk => fallbackSummary url
  | .ok page =>
    let title := jsOr page.titleTag (jsOr page.h1First
      (jsOr page.productTitleAttr "Amazing Product"))
    let description := jsOr page.metaDescription (jsOr page.ogDescription
      (jsOr page.pFirst "Discover this incredible product that will transform your life."))
    let price := jsOr page.priceTestId (jsOr page.priceClassFirst
      (jsOr page.priceClassAny "$99.99"))
    { title := jsSubstring title 100
      description := jsSubstring description 200
      price := jsSubstring price 20
      originalUrl := url }

/-! ## Deployment Publisher — `deployToNetlify` -/

/-- Fields of the Netlify site-creation response the route reads.  `ssl_url`
may be absent or empty (both falsy under `||`), modelled as `""`. -/
structure SiteData where
  id : String
  ssl_url : String
  url : String
  admin_url : String
deriving DecidableEq

/-- Fields of the Netlify deploy response the route reads. -/
structure DeployData where
  id : String
deriving DecidableEq

/-- Outcome of one hosting-API fetch: thrown error, non-ok status (thrown,
then caught), or a parsed body. -/
inductive HostCall (α : Type) where
  | fetchFail
  | httpNotOk
  | ok (body : α)
deriving DecidableEq

/-- The deployment record the route builds on success. -/
structure DeploymentResult where
  url : String
  deploy_id : String
  site_id : String
  admin_url : String
deriving DecidableEq

/-- `deployToNetlify` from the route: with no `NETLIFY_ACCESS_TOKEN` it
returns `null` before any call; any failure of either call is caught and
also yields `null`. -/
def deployToNetlify (websiteHTML siteName : String) (netlifyToken : Option String)
    (siteCall : HostCall SiteData) (deployCall : HostCall DeployData) :
    Option DeploymentResult :=
  match netlifyToken with
  | none => none
  | some _ =>
    match siteCall with
    | .fetchFail => none
    | .httpNotOk => none
    | .ok siteData =>
      match deployCall with
      | .fetchFail => none
      | .httpNotOk => none
      | .ok deployData =>
        some { url := jsOr siteData.ssl_url siteData.url
               deploy_id := deployData.id
               site_id := siteData.id
               admin_url := siteData.admin_url }

/-! ## Content Synthesizer — `generateWebsiteContent` and the fallback template -/

/-- The default image URL used by the `?.url || ...` slot fills. -/
def defaultImgUrl : String := "https://images.unsplash.com/photo-1560472354-b33ff0c44a43"

/-- Models `list[i]?.url || defaultImgUrl` from the template slots. -/
def urlOr (l : List ImageAsset) (i : Nat) : String :=
  match l.get? i with
  | some a => jsOr a.url defaultImgUrl
  | none => defaultImgUrl

/-- `generateProfessionalTemplate` from the route, transcribed literally
(`\x7b`/`\x7d` denote the literal braces of the embedded CSS, `\x27` a literal
apostrophe).  Note that `heroImages` is accepted but never interpolated: the
hero section is a CSS gradient with no image slot. -/
def generateProfessionalTemplate (productInfo : ProductSummary)
    (heroImages featureImages testimonialImages : List ImageAsset) : String :=
  "<!DOCTYPE html>\n<html lang=\"en\">\n<head>\n    <meta charset=\"UTF-8\">\n    <meta name=\"viewport\" content=\"width=device-width, initial-scale=1.0\">\n    <title>"
  ++ productInfo.title
  ++ " - Professional Affiliate Website</title>\n    <style>\n        * \x7b margin: 0; padding: 0; box-sizing: border-box; \x7d\n        body \x7b font-family: \x27Arial\x27, sans-serif; line-height: 1.6; color: #333; \x7d\n        .container \x7b max-width: 1200px; margin: 0 auto; padding: 0 20px; \x7d\n        .hero \x7b background: linear-gradient(135deg, #667eea 0%, #764ba2 100%); color: white; padding: 100px 0; text-align: center; \x7d\n        .hero h1 \x7b font-size: 3rem; margin-bottom: 20px; \x7d\n        .hero p \x7b font-size: 1.2rem; margin-bottom: 30px; \x7d\n        .cta-button \x7b background: #ff6b6b; color: white; padding: 15px 30px; border: none; border-radius: 5px; font-size: 1.1rem; cursor: pointer; text-decoration: none; display: inline-block; \x7d\n        .features \x7b padding: 80px 0; background: #f8f9fa; \x7d\n        .feature-grid \x7b display: grid; grid-template-columns: repeat(auto-fit, minmax(300px, 1fr)); gap: 40px; margin-top: 50px; \x7d\n        .feature \x7b text-align: center; padding: 30px; background: white; border-radius: 10px; box-shadow: 0 5px 15px rgba(0,0,0,0.1); \x7d\n        .feature img \x7b width: 100%; height: 200px; object-fit: cover; border-radius: 10px; margin-bottom: 20px; \x7d\n        .testimonials \x7b padding: 80px 0; \x7d\n        .testimonial \x7b text-align: center; max-width: 600px; margin: 0 auto; \x7d\n        .testimonial img \x7b width: 80px; height: 80px; border-radius: 50%; margin-bottom: 20px; \x7d\n        @media (max-width: 768px) \x7b .hero h1 \x7b font-size: 2rem; \x7d .feature-grid \x7b grid-template-columns: 1fr; \x7d \x7d\n    </style>\n</head>\n<body>\n    <section class=\"hero\">\n        <div class=\"container\">\n            <h1>"
  ++ productInfo.title
  ++ "</h1>\n            <p>"
  ++ productInfo.description
  ++ "</p>\n            <a href=\""
  ++ productInfo.originalUrl
  ++ "\" class=\"cta-button\">Get "
  ++ productInfo.title
  ++ " Now - "
  ++ productInfo.price
  ++ "</a>\n        </div>\n    </section>\n    \n    <section class=\"features\">\n        <div class=\"container\">\n            <h2 style=\"text-align: center; font-size: 2.5rem; margin-bottom: 20px;\">Why Choose "
  ++ productInfo.title
  ++ "?</h2>\n            <div class=\"feature-grid\">\n                <div class=\"feature\">\n                    <img src=\""
  ++ urlOr featureImages 0
  ++ "\" alt=\"Premium Quality\">\n                    <h3>Premium Quality</h3>\n                    <p>Experience the highest quality standards with "
  ++ productInfo.title
  ++ ". Built to last and designed to impress.</p>\n                </div>\n                <div class=\"feature\">\n                    <img src=\""
  ++ urlOr featureImages 1
  ++ "\" alt=\"Amazing Value\">\n                    <h3>Amazing Value</h3>\n                    <p>Get incredible value for your money. "
  ++ productInfo.title
  ++ " delivers results that exceed expectations.</p>\n                </div>\n            </div>\n        </div>\n    </section>\n    \n    <section class=\"testimonials\">\n        <div class=\"container\">\n            <div class=\"testimonial\">\n                <img src=\""
  ++ urlOr testimonialImages 0
  ++ "\" alt=\"Happy Customer\">\n                <h3>\"Life-changing results!\"</h3>\n                <p>\""
  ++ productInfo.title
  ++ " has completely transformed my experience. I couldn\x27t be happier with my purchase!\"</p>\n                <strong>- Sarah Johnson, Verified Customer</strong>\n            </div>\n            <div style=\"text-align: center; margin-top: 40px;\">\n                <a href=\""
  ++ productInfo.originalUrl
  ++ "\" class=\"cta-button\">Order "
  ++ productInfo.title
  ++ " Today - "
  ++ productInfo.price
  ++ "</a>\n            </div>\n        </div>\n    </section>\n</body>\n</html>"

/-- Outcome of the single Gemini call: a thrown error (including the missing
`GEMINI_API_KEY` credential, which makes the client call fail) or a returned
text. -/
inductive ModelCall where
  | fail
  | ok (text : String)
deriving DecidableEq

/-- Models the JS regex match `<!DOCTYPE[\s\S]*<\/html>` with the
ignore-case flag.  A match requires the substrings `<!doctype` and `</html>`
(case-insensitively); the matched slice is approximated by the whole string,
which is sound for this program: the enclosing branch runs only on strings
already known not to contain `<!doctype` case-insensitively, where the regex
provably cannot match and the approximation is never exercised. -/
def docTypeMatch (s : String) : Option String :=
  if lowerIncludes s "<!doctype" && lowerIncludes s "</html>" then some s else none

/-- `generateWebsiteContent` from the route: source four image lists, invoke
the model once, strip code fences, and keep the model text only when it
carries a document root marker; otherwise attempt the regex extraction and
finally fall back to the deterministic template.  A thrown model call is
caught and also falls back to the template. -/
def generateWebsiteContent (productInfo : ProductSummary)
    (heroCall featCall testCall : UnsplashOutcome) (modelCall : ModelCall) : String :=
  let heroImages := getUnsplashImages (productInfo.title ++ " product lifestyle") 1 heroCall
  let featureImages := getUnsplashImages (productInfo.title ++ " benefits features") 2 featCall
  let testimonialImages := getUnsplashImages "happy customer testimonial" 1 testCall
  match modelCall with
  | .fail => generateProfessionalTemplate productInfo heroImages featureImages testimonialImages
  | .ok text =>
    let websiteHTML := ((text.replace "```html" "").replace "```" "").trim
    if !(lowerIncludes websiteHTML "<!doctype") && !(lowerIncludes websiteHTML "<html") then
      match docTypeMatch websiteHTML with
      | some m => m
      | none =>
        generateProfessionalTemplate productInfo heroImages featureImages testimonialImages
    else
      websiteHTML

/-- The structural invariant of a GeneratedDocument: it carries a document
root marker (`<!doctype` or `<html`, case-insensitively). -/
def rootMarker (s : String) : Bool :=
  lowerIncludes s "<!doctype" || lowerIncludes s "<html"

/-! ## Auth library — `verifyToken` -/

/-- A decoded JWT payload as the auth library reads it: the `userId` field may
be absent. -/
structure JwtPayload where
  userId : Option String
deriving DecidableEq

/-- Models JS truthiness of the decoded `userId` field: absent or empty is
falsy. -/
def jsTruthy (o : Option String) : Bool :=
  match o with
  | none => false
  | some s => s != ""

/-- `verifyToken` from the auth library.  `verifyCall` models
`jwt.verify(token, JWT_SECRET)` (throws on invalid signature or expiry);
`decodeCall` models `jwt.decode(token)` (returns `null` for undecodable
tokens; a throw is also caught).  When verification throws but the decode
yields a payload with a truthy `userId`, the decoded payload is returned
without any signature check. -/
def verifyToken (verifyCall : Except Unit JwtPayload)
    (decodeCall : Except Unit (Option JwtPayload)) : Option JwtPayload :=
  match verifyCall with
  | .ok decoded => some decoded
  | .error _ =>
    match decodeCall with
    | .ok (some decodedFallback) =>
      if jsTruthy decodedFallback.userId then some decodedFallback else none
    | .ok none => none
    | .error _ => none

/-! ## Quota Gate — `getPlanLimits` -/

/-- The per-plan limits object. -/
structure PlanLimits where
  websites : Nat
deriving DecidableEq

/-- `getPlanLimits` from the route: a switch on the plan string with a
default of 3. -/
def getPlanLimits (plan : String) : PlanLimits :=
  if plan = "basic" then ⟨3⟩
  else if plan = "pro" then ⟨10⟩
  else if plan = "enterprise" then ⟨999⟩
  else ⟨3⟩

/-! ## Pipeline Orchestrator — the `POST` handler -/

/-- The authenticated user document fields the handler reads.  The
`websiteCount` field may be absent in the stored document (`user.websiteCount
|| 0`). -/
structure UserData where
  plan : String
  websiteCount : Option Nat
deriving DecidableEq

/-- Models JS `'char'.toLowerCase()` + `.replace(/[^a-z0-9]/g, '-')` applied
to one character: after lowering, anything outside `a..z` / `0..9` becomes a
dash. -/
def slugChar (c : Char) : Char :=
  if (97 ≤ c.toNat ∧ c.toNat ≤ 122) ∨ (48 ≤ c.toNat ∧ c.toNat ≤ 57) then c else '-'

/-- The slug built by the handler:
`title.toLowerCase().replace(/[^a-z0-9]/g, '-') + '-' + Date.now()`. -/
def makeSlug (title : String) (now : Nat) : String :=
  String.mk ((title.data.map Char.toLower).map slugChar) ++ "-" ++ toString now

/-- The public view of a created website returned in the 200 body. -/
structure WebsiteView where
  id : String
  slug : String
  title : String
  description : String
  url : String
  previewUrl : String
  netlifyUrl : Option String
  adminUrl : Option String
deriving DecidableEq

/-- The response alternatives of the handler: 401, 400, 403 (with the
machine-readable count and limit), 200 (with the public view, the remaining
quota, and the deployment status/platform strings), and the catch-all 500. -/
inductive PostResponse where
  | authRequired
  | urlRequired
  | limitReached (plan : String) (currentCount limit : Nat)
  | created (website : WebsiteView) (remainingWebsites : Nat)
      (deploymentStatus deploymentPlatform : String)
  | serverError
deriving DecidableEq

/-- The HTTP status of each response alternative. -/
def statusOf : PostResponse → Nat
  | .authRequired => 401
  | .urlRequired => 400
  | .limitReached _ _ _ => 403
  | .created _ _ _ _ => 200
  | .serverError => 500

/-- The database writes observable after the handler returns: whether the
website document was inserted, and whether the user's `websiteCount` was
incremented. -/
structure StoreEffects where
  websiteInserted : Bool
  userCountIncremented : Bool
deriving DecidableEq

/-- Every external fact one POST request observes: the resolved caller
(`verifyUser`, `null` on missing token, lookup miss, or database error), the
parsed `productUrl` body field, the outcomes of the six external calls, the
hosting credential, the success of the two database writes, the clock, the
configured public app URL, and the fresh ObjectId. -/
structure PipelineWorld where
  authUser : Option UserData
  productUrl : Option String
  analyzeCall : FetchOutcome
  heroCall : UnsplashOutcome
  featCall : UnsplashOutcome
  testCall : UnsplashOutcome
  modelCall : ModelCall
  netlifyToken : Option String
  siteCall : HostCall SiteData
  deployCall : HostCall DeployData
  dbInsertOk : Bool
  dbIncOk : Bool
  now : Nat
  appUrl : Option String
  newId : String

/-- The `POST` handler from the route.  Auth, input validation and the quota
check exit early; the analysis, synthesis and deployment stages are total
(each absorbs its own failures); the two database writes are the only
remaining throw sites, and a throw from either lands in the outer catch as a
500.  `dbInsertOk = false` covers both a failing `connectToDatabase` and a
failing `insertOne` (in either case nothing was inserted); `dbIncOk = false`
a failing `updateOne` after a successful insert. -/
def POSTgenerate (w : PipelineWorld) : PostResponse × StoreEffects :=
  match w.authUser with
  | none => (.authRequired, ⟨false, false⟩)
  | some user =>
    match w.productUrl with
    | none => (.urlRequired, ⟨false, false⟩)
    | some productUrl =>
      if productUrl = "" then (.urlRequired, ⟨false, false⟩)
      else
        let limits := getPlanLimits user.plan
        let currentWebsiteCount := user.websiteCount.getD 0
        if currentWebsiteCount ≥ limits.websites then
          (.limitReached user.plan currentWebsiteCount limits.websites, ⟨false, false⟩)
        else
          let productInfo := analyzeProductURL productUrl w.analyzeCall
          let websiteHTML :=
            generateWebsiteContent productInfo w.heroCall w.featCall w.testCall w.modelCall
          let slug := makeSlug productInfo.title w.now
          let netlifyDeployment :=
            deployToNetlify websiteHTML slug w.netlifyToken w.siteCall w.deployCall
          if w.dbInsertOk = false then (.serverError, ⟨false, false⟩)
          else if w.dbIncOk = false then (.serverError, ⟨true, false⟩)
          else
            let appBase := jsOr (w.appUrl.getD "") "https://affilify.eu"
            let liveUrl :=
              jsOr (match netlifyDeployment with | some d => d.url | none => "")
                (appBase ++ "/websites/" ++ slug)
            (.created
              { id := w.newId
                slug := slug
                title := productInfo.title
                description := productInfo.description
                url := liveUrl
                previewUrl := appBase ++ "/preview/" ++ slug
                netlifyUrl := jsOrNull (netlifyDeployment.map DeploymentResult.url)
                adminUrl := jsOrNull (netlifyDeployment.map DeploymentResult.admin_url) }
              (limits.websites - currentWebsiteCount - 1)
              (match netlifyDeployment with | some _ => "deployed" | none => "local")
              (match netlifyDeployment with | some _ => "netlify" | none => "affilify"),
             ⟨true, true⟩)

/-! ## Interleaving model of two concurrent POST requests

The quota comparison (`currentWebsiteCount >= limits.websites`) and the later
`$inc` of `websiteCount` are separate database operations with no transaction
around them; two requests for the same account interleave freely between the
two.  Each request is reduced to its two shared-state operations. -/

/-- The shared `websiteCount` of one account plus each request's recorded
admission decision (`none` until its check has run). -/
structure RaceState where
  websiteCount : Nat
  admitted1 : Option Bool
  admitted2 : Option Bool
deriving DecidableEq

/-- One shared-state operation of either request. -/
inductive RaceStep where
  | check1
  | check2
  | inc1
  | inc2
deriving DecidableEq

/-- The admission comparison of the handler, on the counter value the request
read: rejected iff `websiteCount >= limit`. -/
def quotaRejects (limit count : Nat) : Bool := limit ≤ count

/-- Effect of one operation: a check records the admission decision computed
from the current counter; an increment applies `$inc websiteCount: 1` and is
reached only by an admitted request. -/
def raceStep (limit : Nat) (s : RaceState) : RaceStep → RaceState
  | .check1 => { s with admitted1 := some (!(quotaRejects limit s.websiteCount)) }
  | .check2 => { s with admitted2 := some (!(quotaRejects limit s.websiteCount)) }
  | .inc1 =>
    if s.admitted1 = some true then { s with websiteCount := s.websiteCount + 1 } else s
  | .inc2 =>
    if s.admitted2 = some true then { s with websiteCount := s.websiteCount + 1 } else s

/-- Run an interleaving of the two requests' operations. -/
def runRace (limit : Nat) (steps : List RaceStep) (s : RaceState) : RaceState :=
  steps.foldl (raceStep limit) s

/-! ## Structural lemmas about the fallback template -/

theorem rootMarker_template (pinfo : ProductSummary) (h f t : List ImageAsset) :
    rootMarker (generateProfessionalTemplate pinfo h f t) = true := by
  have hdoc : lowerIncludes (generateProfessionalTemplate pinfo h f t) "<!doctype" = true := by
    unfold generateProfessionalTemplate
    repeat apply lowerIncludes_append_left
    decide
  simp [rootMarker, hdoc]

theorem template_contains_title (pinfo : ProductSummary) (h f t : List ImageAsset) :
    containsStr (generateProfessionalTemplate pinfo h f t) pinfo.title = true := by
  unfold generateProfessionalTemplate
  repeat first
    | with_reducible exact containsStr_append_self _ _
    | with_reducible apply containsStr_append_left

theorem template_contains_feature0 (pinfo : ProductSummary) (h f t : List ImageAsset) :
    containsStr (generateProfessionalTemplate pinfo h f t) (urlOr f 0) = true := by
  unfold generateProfessionalTemplate
  repeat first
    | with_reducible exact containsStr_append_self _ _
    | with_reducible apply containsStr_append_left

theorem template_contains_feature1 (pinfo : ProductSummary) (h f t : List ImageAsset) :
    containsStr (generateProfessionalTemplate pinfo h f t) (urlOr f 1) = true := by
  unfold generateProfessionalTemplate
  repeat first
    | with_reducible exact containsStr_append_self _ _
    | with_reducible apply containsStr_append_left

theorem template_contains_testimonial (pinfo : ProductSummary) (h f t : List ImageAsset) :
    containsStr (generateProfessionalTemplate pinfo h f t) (urlOr t 0) = true := by
  unfold generateProfessionalTemplate
  repeat first
    | with_reducible exact containsStr_append_self _ _
    | with_reducible apply containsStr_append_left

theorem generate_fail_eq_template (pinfo : ProductSummary)
    (hc fc tc : UnsplashOutcome) :
    generateWebsiteContent pinfo hc fc tc ModelCall.fail =
      generateProfessionalTemplate pinfo
        (getUnsplashImages (pinfo.title ++ " product lifestyle") 1 hc)
        (getUnsplashImages (pinfo.title ++ " benefits features") 2 fc)
        (getUnsplashImages "happy customer testimonial" 1 tc) := rfl

theorem rootMarker_generate (pinfo : ProductSummary)
    (hc fc tc : UnsplashOutcome) (mc : ModelCall) :
    rootMarker (generateWebsiteContent pinfo hc fc tc mc) = true := by
  cases mc with
  | fail =>
    rw [generate_fail_eq_template]
    exact rootMarker_template _ _ _ _
  | ok text =>
    by_cases h1 :
        lowerIncludes (((text.replace "```html" "").replace "```" "").trim) "<!doctype" = true
    · simp [generateWebsiteContent, rootMarker, h1]
    · by_cases h2 :
          lowerIncludes (((text.replace "```html" "").replace "```" "").trim) "<html" = true
      · simp [generateWebsiteContent, rootMarker, h1, h2]
      · have hd : docTypeMatch (((text.replace "```html" "").replace "```" "").trim) = none := by
          simp [docTypeMatch, eq_false_of_ne_true h1]
        simp [generateWebsiteContent, eq_false_of_ne_true h1, eq_false_of_ne_true h2, hd,
          rootMarker_template]
set_option maxRecDepth 8000 in
/-- C1 (counterexample): with the model credential absent (the model call
throws) and all four images sourced successfully, the synthesizer returns the
deterministic template, which contains the product title, both feature image
URLs and the testimonial image URL — but not the hero image URL, so the claim
that all four sourced image URLs are substituted is false. -/
theorem claimC1_counterexample :
    containsStr
      (generateWebsiteContent ⟨"Widget", "Desc", "$5", "https://m.example/p"⟩
        (UnsplashOutcome.ok [⟨"HURL", "ht", "ha", "hc", none⟩])
        (UnsplashOutcome.ok [⟨"F0URL", "f0t", "f0a", "f0c", none⟩,
          ⟨"F1URL", "f1t", "f1a", "f1c", none⟩])
        (UnsplashOutcome.ok [⟨"TURL", "tt", "ta", "tc", none⟩])
        ModelCall.fail) "HURL" = false
    ∧ containsStr
      (generateWebsiteContent ⟨"Widget", "Desc", "$5", "https://m.example/p"⟩
        (UnsplashOutcome.ok [⟨"HURL", "ht", "ha", "hc", none⟩])
        (UnsplashOutcome.ok [⟨"F0URL", "f0t", "f0a", "f0c", none⟩,
          ⟨"F1URL", "f1t", "f1a", "f1c", none⟩])
        (UnsplashOutcome.ok [⟨"TURL", "tt", "ta", "tc", none⟩])
        ModelCall.fail) "F0URL" = true
    ∧ containsStr
      (generateWebsiteContent ⟨"Widget", "Desc", "$5", "https://m.example/p"⟩
        (UnsplashOutcome.ok [⟨"HURL", "ht", "ha", "hc", none⟩])
        (UnsplashOutcome.ok [⟨"F0URL", "f0t", "f0a", "f0c", none⟩,
          ⟨"F1URL", "f1t", "f1a", "f1c", none⟩])
        (UnsplashOutcome.ok [⟨"TURL", "tt", "ta", "tc", none⟩])
        ModelCall.fail) "F1URL" = true
    ∧ containsStr
      (generateWebsiteContent ⟨"Widget", "Desc", "$5", "https://m.example/p"⟩
        (UnsplashOutcome.ok [⟨"HURL", "ht", "ha", "hc", none⟩])
        (UnsplashOutcome.ok [⟨"F0URL", "f0t", "f0a", "f0c", none⟩,
          ⟨"F1URL", "f1t", "f1a", "f1c", none⟩])
        (UnsplashOutcome.ok [⟨"TURL", "tt", "ta", "tc", none⟩])
        ModelCall.fail) "TURL" = true
    ∧ containsStr
      (generateWebsiteContent ⟨"Widget", "Desc", "$5", "https://m.example/p"⟩
        (UnsplashOutcome.ok [⟨"HURL", "ht", "ha", "hc", none⟩])
        (UnsplashOutcome.ok [⟨"F0URL", "f0t", "f0a", "f0c", none⟩,
          ⟨"F1URL", "f1t", "f1a", "f1c", none⟩])
        (UnsplashOutcome.ok [⟨"TURL", "tt", "ta", "tc", none⟩])
        ModelCall.fail) "Widget" = true := by
  refine ⟨?_, ?_, ?_, ?_, ?_⟩ <;> decide

/-- C1 (amended): the synthesizer never fails and always returns a document
carrying a root marker, for every model outcome; when the model call fails it
returns the deterministic template, which substitutes the product title, the
two feature image URLs and the testimonial image URL into their slots (the
hero image URL has no slot in the template). -/
theorem claimC1_amended (pinfo : ProductSummary)
    (hc fc tc : UnsplashOutcome) (mc : ModelCall) :
    rootMarker (generateWebsiteContent pinfo hc fc tc mc) = true
    ∧ generateWebsiteContent pinfo hc fc tc ModelCall.fail =
        generateProfessionalTemplate pinfo
          (getUnsplashImages (pinfo.title ++ " product lifestyle") 1 hc)
          (getUnsplashImages (pinfo.title ++ " benefits features") 2 fc)
          (getUnsplashImages "happy customer testimonial" 1 tc)
    ∧ containsStr (generateWebsiteContent pinfo hc fc tc ModelCall.fail) pinfo.title = true
    ∧ containsStr (generateWebsiteContent pinfo hc fc tc ModelCall.fail)
        (urlOr (getUnsplashImages (pinfo.title ++ " benefits features") 2 fc) 0) = true
    ∧ containsStr (generateWebsiteContent pinfo hc fc tc ModelCall.fail)
        (urlOr (getUnsplashImages (pinfo.title ++ " benefits features") 2 fc) 1) = true
    ∧ containsStr (generateWebsiteContent pinfo hc fc tc ModelCall.fail)
        (urlOr (getUnsplashImages "happy customer testimonial" 1 tc) 0) = true := by
  refine ⟨rootMarker_generate pinfo hc fc tc mc, generate_fail_eq_template pinfo hc fc tc,
    ?_, ?_, ?_, ?_⟩ <;> rw [generate_fail_eq_template]
  · exact template_contains_title _ _ _ _
  · exact template_contains_feature0 _ _ _ _
  · exact template_contains_feature1 _ _ _ _
  · exact template_contains_testimonial _ _ _ _

/-- C4 (counterexample): a successful provider response whose `results`
payload carries fewer photos than requested is returned unchanged, so
`fetchImages` does not return exactly `count` assets for every payload shape. -/
theorem claimC4_counterexample :
    (getUnsplashImages "laptop" 2 (UnsplashOutcome.ok [])).length = 0 ∧ (0 : Nat) ≠ 2 := by
  decide

/-- C4 (amended): on a missing provider key, a thrown fetch, or a non-ok
response, `fetchImages` returns exactly `count` copies of the fixed
placeholder asset (attribution "Professional stock photo", no download
reference); on a successful response it returns the payload's mapped
`results` unchanged, whose length is the payload's length rather than
`count`. -/
theorem claimC4_amended (q : String) (n : Nat) (rs : List ImageAsset) :
    getUnsplashImages q n UnsplashOutcome.noKey = generatePlaceholderImages q n
    ∧ getUnsplashImages q n UnsplashOutcome.fetchFail = generatePlaceholderImages q n
    ∧ getUnsplashImages q n UnsplashOutcome.httpNotOk = generatePlaceholderImages q n
    ∧ (generatePlaceholderImages q n).length = n
    ∧ generatePlaceholderImages q n =
        List.replicate n
          { url := placeholderUrl, thumb := placeholderThumb, alt := q,
            credit := "Professional stock photo", download_url := none }
    ∧ getUnsplashImages q n (UnsplashOutcome.ok rs) = rs := by
  refine ⟨rfl, rfl, rfl, ?_, rfl, rfl⟩
  simp [generatePlaceholderImages]

/-- C7 (confirmed): the admission comparison and the counter increment are
separate shared-state operations; the interleaving check1-check2-inc1-inc2
from a counter one below the basic ceiling admits both requests and leaves
the counter one above the ceiling. -/
theorem claimC7_race :
    (runRace (getPlanLimits "basic").websites
        [RaceStep.check1, RaceStep.check2, RaceStep.inc1, RaceStep.inc2]
        ⟨(getPlanLimits "basic").websites - 1, none, none⟩).admitted1 = some true
    ∧ (runRace (getPlanLimits "basic").websites
        [RaceStep.check1, RaceStep.check2, RaceStep.inc1, RaceStep.inc2]
        ⟨(getPlanLimits "basic").websites - 1, none, none⟩).admitted2 = some true
    ∧ (runRace (getPlanLimits "basic").websites
        [RaceStep.check1, RaceStep.check2, RaceStep.inc1, RaceStep.inc2]
        ⟨(getPlanLimits "basic").websites - 1, none, none⟩).websiteCount =
      (getPlanLimits "basic").websites + 1 := by
  decide

/-- C9 (counterexample): a token whose verification fails and whose payload
decodes to an object that does contain a `userId` field — holding the empty
string — makes `verifyToken` return `null`, so a decodable `userId` field is
not sufficient for a non-null result. -/
theorem claimC9_counterexample :
    verifyToken (Except.error ()) (Except.ok (some { userId := some "" })) = none
    ∧ ({ userId := some "" } : JwtPayload).userId ≠ none := by
  decide

/-- C9 (amended): when cryptographic verification throws, `verifyToken`
returns a payload exactly when the decode fallback yields a payload whose
`userId` field is truthy (present and non-empty), and it returns that decoded
payload — so signature validity is not required for a non-null result, but a
falsy `userId` (absent or empty) yields `null` even when the payload decodes. -/
theorem claimC9_amended (decodeCall : Except Unit (Option JwtPayload)) (p : JwtPayload) :
    verifyToken (Except.error ()) decodeCall = some p ↔
      decodeCall = Except.ok (some p) ∧ jsTruthy p.userId = true := by
  constructor
  · intro h
    match decodeCall with
    | .error e => simp [verifyToken] at h
    | .ok none => simp [verifyToken] at h
    | .ok (some q) =>
      simp only [verifyToken] at h
      by_cases ht : jsTruthy q.userId = true
      · rw [if_pos ht] at h
        obtain rfl : q = p := Option.some_inj.mp h
        exact ⟨rfl, ht⟩
      · rw [if_neg ht] at h
        exact Option.noConfusion h
  · rintro ⟨rfl, ht⟩
    simp [verifyToken, ht]

/-- C9 witness: a failed verification with a decodable non-empty `userId`
returns that payload. -/
theorem claimC9_witness :
    verifyToken (Except.error ()) (Except.ok (some ⟨some "u1"⟩)) = some ⟨some "u1"⟩ :=
  (claimC9_amended (Except.ok (some ⟨some "u1"⟩)) ⟨some "u1"⟩).mpr ⟨rfl, by decide⟩

/-- C5 (confirmed): for every non-empty url and every fetch outcome the
analyzer returns a summary whose fields respect the per-field truncation
bounds and whose original URL is preserved; a thrown fetch or a non-ok status
yields the fixed fallback summary with title "Premium Product" and price
"$99.99". -/
theorem claimC5_analyze (url : String) (outcome : FetchOutcome) (h : url ≠ "") :
    (analyzeProductURL url outcome).title.length ≤ 100
    ∧ (analyzeProductURL url outcome).description.length ≤ 200
    ∧ (analyzeProductURL url outcome).price.length ≤ 20
    ∧ (analyzeProductURL url outcome).originalUrl = url
    ∧ analyzeProductURL url FetchOutcome.networkError = fallbackSummary url
    ∧ analyzeProductURL url FetchOutcome.httpNotOk = fallbackSummary url
    ∧ (fallbackSummary url).title = "Premium Product"
    ∧ (fallbackSummary url).price = "$99.99" := by
  refine ⟨?_, ?_, ?_, ?_, rfl, rfl, rfl, rfl⟩ <;>
    cases outcome <;>
      first
        | exact jsSubstring_length_le _ _
        | rfl
        | (simp only [analyzeProductURL, fallbackSummary]; decide)

/-- C5 witness: the bounds and fallback at a concrete unreachable host. -/
theorem claimC5_analyze_witness :
    ("https://unreachable.example/p" ≠ "")
    ∧ (analyzeProductURL "https://unreachable.example/p" FetchOutcome.networkError).title.length
        ≤ 100 :=
  ⟨by decide,
    (claimC5_analyze "https://unreachable.example/p" FetchOutcome.networkError (by decide)).1⟩

/-! ## Reduction lemmas for the POST handler -/

theorem POSTgenerate_reject {w : PipelineWorld} {user : UserData} {url : String}
    (h1 : w.authUser = some user) (h2 : w.productUrl = some url) (h3 : ¬ url = "")
    (hq : user.websiteCount.getD 0 ≥ (getPlanLimits user.plan).websites) :
    POSTgenerate w =
      (PostResponse.limitReached user.plan (user.websiteCount.getD 0)
        (getPlanLimits user.plan).websites, ⟨false, false⟩) := by
  simp only [POSTgenerate, h1, h2]
  rw [if_neg h3, if_pos hq]

theorem POSTgenerate_insertFail {w : PipelineWorld} {user : UserData} {url : String}
    (h1 : w.authUser = some user) (h2 : w.productUrl = some url) (h3 : ¬ url = "")
    (hq : ¬ user.websiteCount.getD 0 ≥ (getPlanLimits user.plan).websites)
    (hins : w.dbInsertOk = false) :
    POSTgenerate w = (PostResponse.serverError, ⟨false, false⟩) := by
  simp only [POSTgenerate, h1, h2]
  rw [if_neg h3, if_neg hq, if_pos hins]

theorem POSTgenerate_incFail {w : PipelineWorld} {user : UserData} {url : String}
    (h1 : w.authUser = some user) (h2 : w.productUrl = some url) (h3 : ¬ url = "")
    (hq : ¬ user.websiteCount.getD 0 ≥ (getPlanLimits user.plan).websites)
    (hins : w.dbInsertOk = true) (hinc : w.dbIncOk = false) :
    POSTgenerate w = (PostResponse.serverError, ⟨true, false⟩) := by
  simp only [POSTgenerate, h1, h2]
  rw [if_neg h3, if_neg hq]
  rw [if_neg (by simp [hins]), if_pos hinc]

theorem POSTgenerate_success {w : PipelineWorld} {user : UserData} {url : String}
    (h1 : w.authUser = some user) (h2 : w.productUrl = some url) (h3 : ¬ url = "")
    (hq : ¬ user.websiteCount.getD 0 ≥ (getPlanLimits user.plan).websites)
    (hins : w.dbInsertOk = true) (hinc : w.dbIncOk = true) :
    POSTgenerate w =
      (PostResponse.created
        { id := w.newId
          slug := makeSlug (analyzeProductURL url w.analyzeCall).title w.now
          title := (analyzeProductURL url w.analyzeCall).title
          description := (analyzeProductURL url w.analyzeCall).description
          url := jsOr
            (match deployToNetlify
                (generateWebsiteContent (analyzeProductURL url w.analyzeCall)
                  w.heroCall w.featCall w.testCall w.modelCall)
                (makeSlug (analyzeProductURL url w.analyzeCall).title w.now)
                w.netlifyToken w.siteCall w.deployCall with
              | some d => d.url
              | none => "")
            (jsOr (w.appUrl.getD "") "https://affilify.eu" ++ "/websites/" ++
              makeSlug (analyzeProductURL url w.analyzeCall).title w.now)
          previewUrl := jsOr (w.appUrl.getD "") "https://affilify.eu" ++ "/preview/" ++
            makeSlug (analyzeProductURL url w.analyzeCall).title w.now
          netlifyUrl := jsOrNull ((deployToNetlify
              (generateWebsiteContent (analyzeProductURL url w.analyzeCall)
                w.heroCall w.featCall w.testCall w.modelCall)
              (makeSlug (analyzeProductURL url w.analyzeCall).title w.now)
              w.netlifyToken w.siteCall w.deployCall).map DeploymentResult.url)
          adminUrl := jsOrNull ((deployToNetlify
              (generateWebsiteContent (analyzeProductURL url w.analyzeCall)
                w.heroCall w.featCall w.testCall w.modelCall)
              (makeSlug (analyzeProductURL url w.analyzeCall).title w.now)
              w.netlifyToken w.siteCall w.deployCall).map DeploymentResult.admin_url) }
        ((getPlanLimits user.plan).websites - user.websiteCount.getD 0 - 1)
        (match deployToNetlify
            (generateWebsiteContent (analyzeProductURL url w.analyzeCall)
              w.heroCall w.featCall w.testCall w.modelCall)
            (makeSlug (analyzeProductURL url w.analyzeCall).title w.now)
            w.netlifyToken w.siteCall w.deployCall with
          | some _ => "deployed"
          | none => "local")
        (match deployToNetlify
            (generateWebsiteContent (analyzeProductURL url w.analyzeCall)
              w.heroCall w.featCall w.testCall w.modelCall)
            (makeSlug (analyzeProductURL url w.analyzeCall).title w.now)
            w.netlifyToken w.siteCall w.deployCall with
          | some _ => "netlify"
          | none => "affilify"),
       ⟨true, true⟩) := by
  simp only [POSTgenerate, h1, h2]
  rw [if_neg h3, if_neg hq]
  rw [if_neg (by simp [hins]), if_neg (by simp [hinc])]

/-- C2 (confirmed): the handler admits a request exactly when the recorded
usage is below the plan ceiling (basic 3, pro 10, enterprise 999); a rejected
request gets the 403 alternative carrying the current count and the limit, so
a basic account at usage 3 is rejected with currentCount 3 and limit 3. -/
theorem claimC2_quota :
    (∀ (w : PipelineWorld) (user : UserData) (url : String),
        w.authUser = some user → w.productUrl = some url → url ≠ "" →
        ((user.websiteCount.getD 0 < (getPlanLimits user.plan).websites →
            statusOf (POSTgenerate w).1 ≠ 403)
          ∧ (¬ user.websiteCount.getD 0 < (getPlanLimits user.plan).websites →
            (POSTgenerate w).1 =
              PostResponse.limitReached user.plan (user.websiteCount.getD 0)
                (getPlanLimits user.plan).websites)))
    ∧ getPlanLimits "basic" = ⟨3⟩ ∧ getPlanLimits "pro" = ⟨10⟩
    ∧ getPlanLimits "enterprise" = ⟨999⟩ := by
  refine ⟨?_, by decide, by decide, by decide⟩
  intro w user url h1 h2 h3
  constructor
  · intro hlt
    have hq : ¬ user.websiteCount.getD 0 ≥ (getPlanLimits user.plan).websites := by omega
    cases hins : w.dbInsertOk with
    | false =>
      rw [POSTgenerate_insertFail h1 h2 h3 hq hins]
      decide
    | true =>
      cases hinc : w.dbIncOk with
      | false =>
        rw [POSTgenerate_incFail h1 h2 h3 hq hins hinc]
        decide
      | true =>
        rw [POSTgenerate_success h1 h2 h3 hq hins hinc]
        simp [statusOf]
  · intro hge
    have hq : user.websiteCount.getD 0 ≥ (getPlanLimits user.plan).websites := by omega
    rw [POSTgenerate_reject h1 h2 h3 hq]

/-- C2 witness: a basic-plan account at usage 3 is rejected with
currentCount 3 and limit 3. -/
theorem claimC2_quota_witness :
    (POSTgenerate
      { authUser := some ⟨"basic", some 3⟩, productUrl := some "https://x",
        analyzeCall := FetchOutcome.networkError, heroCall := UnsplashOutcome.noKey,
        featCall := UnsplashOutcome.noKey, testCall := UnsplashOutcome.noKey,
        modelCall := ModelCall.fail, netlifyToken := none,
        siteCall := HostCall.fetchFail, deployCall := HostCall.fetchFail,
        dbInsertOk := true, dbIncOk := true, now := 0, appUrl := none,
        newId := "i" }).1 = PostResponse.limitReached "basic" 3 3 :=
  (claimC2_quota.1 _ ⟨"basic", some 3⟩ "https://x" rfl rfl (by decide)).2 (by decide)

/-- C3 (confirmed): once a request passes authorization, input validation and
quota admission, the outcomes of the analysis, synthesis and deployment
stages (all universally quantified here) cannot produce a failure exit: the
response is 200 or 500, and it is 500 exactly when one of the two storage
writes fails. -/
theorem claimC3_soft_errors (w : PipelineWorld) (user : UserData) (url : String)
    (h1 : w.authUser = some user) (h2 : w.productUrl = some url) (h3 : url ≠ "")
    (hq : user.websiteCount.getD 0 < (getPlanLimits user.plan).websites) :
    (statusOf (POSTgenerate w).1 = 200 ∨ statusOf (POSTgenerate w).1 = 500)
    ∧ (statusOf (POSTgenerate w).1 = 500 ↔
        (w.dbInsertOk = false ∨ w.dbIncOk = false)) := by
  have hq' : ¬ user.websiteCount.getD 0 ≥ (getPlanLimits user.plan).websites := by omega
  cases hins : w.dbInsertOk with
  | false =>
    rw [POSTgenerate_insertFail h1 h2 h3 hq' hins]
    exact ⟨Or.inr rfl, by simp [statusOf]⟩
  | true =>
    cases hinc : w.dbIncOk with
    | false =>
      rw [POSTgenerate_incFail h1 h2 h3 hq' hins hinc]
      exact ⟨Or.inr rfl, by simp [statusOf]⟩
    | true =>
      rw [POSTgenerate_success h1 h2 h3 hq' hins hinc]
      refine ⟨Or.inl rfl, ?_⟩
      simp [statusOf]

/-- C3 witness: a concrete admitted request whose analysis, synthesis and
deployment all fail still exits 200 or 500. -/
theorem claimC3_soft_errors_witness :
    statusOf (POSTgenerate
      { authUser := some ⟨"basic", some 0⟩, productUrl := some "https://x",
        analyzeCall := FetchOutcome.networkError, heroCall := UnsplashOutcome.fetchFail,
        featCall := UnsplashOutcome.fetchFail, testCall := UnsplashOutcome.fetchFail,
        modelCall := ModelCall.fail, netlifyToken := none,
        siteCall := HostCall.fetchFail, deployCall := HostCall.fetchFail,
        dbInsertOk := true, dbIncOk := true, now := 0, appUrl := none,
        newId := "i" }).1 = 200 ∨
    statusOf (POSTgenerate
      { authUser := some ⟨"basic", some 0⟩, productUrl := some "https://x",
        analyzeCall := FetchOutcome.networkError, heroCall := UnsplashOutcome.fetchFail,
        featCall := UnsplashOutcome.fetchFail, testCall := UnsplashOutcome.fetchFail,
        modelCall := ModelCall.fail, netlifyToken := none,
        siteCall := HostCall.fetchFail, deployCall := HostCall.fetchFail,
        dbInsertOk := true, dbIncOk := true, now := 0, appUrl := none,
        newId := "i" }).1 = 500 :=
  (claimC3_soft_errors _ ⟨"basic", some 0⟩ "https://x" rfl rfl (by decide) (by decide)).1

/-- C10 (confirmed): `getPlanLimits` maps basic to 3, pro to 10, enterprise to
999, and any other plan string to 3; the enterprise ceiling is therefore
finite, and an enterprise account whose recorded usage is at least 999 is
rejected at admission with limit 999. -/
theorem claimC10_planLimits :
    getPlanLimits "basic" = ⟨3⟩ ∧ getPlanLimits "pro" = ⟨10⟩
    ∧ getPlanLimits "enterprise" = ⟨999⟩
    ∧ (∀ p : String, p ≠ "basic" → p ≠ "pro" → p ≠ "enterprise" → getPlanLimits p = ⟨3⟩)
    ∧ (∀ (w : PipelineWorld) (user : UserData) (url : String),
        w.authUser = some user → w.productUrl = some url → url ≠ "" →
        user.plan = "enterprise" → 999 ≤ user.websiteCount.getD 0 →
        (POSTgenerate w).1 =
          PostResponse.limitReached "enterprise" (user.websiteCount.getD 0) 999) := by
  refine ⟨by decide, by decide, by decide, ?_, ?_⟩
  · intro p hb hp he
    simp [getPlanLimits, hb, hp, he]
  · intro w user url h1 h2 h3 hplan hge
    have h999 : (getPlanLimits user.plan).websites = 999 := by
      rw [hplan]
      decide
    have hq : user.websiteCount.getD 0 ≥ (getPlanLimits user.plan).websites := by omega
    rw [POSTgenerate_reject h1 h2 h3 hq]
    simp only [h999, hplan]
    rw [(by decide : (getPlanLimits "enterprise").websites = 999)]

/-- C10 witness: an enterprise account at usage 999 is rejected with
limit 999. -/
theorem claimC10_planLimits_witness :
    (POSTgenerate
      { authUser := some ⟨"enterprise", some 999⟩, productUrl := some "https://x",
        analyzeCall := FetchOutcome.networkError, heroCall := UnsplashOutcome.noKey,
        featCall := UnsplashOutcome.noKey, testCall := UnsplashOutcome.noKey,
        modelCall := ModelCall.fail, netlifyToken := none,
        siteCall := HostCall.fetchFail, deployCall := HostCall.fetchFail,
        dbInsertOk := true, dbIncOk := true, now := 0, appUrl := none,
        newId := "i" }).1 = PostResponse.limitReached "enterprise" 999 999 :=
  claimC10_planLimits.2.2.2.2 _ ⟨"enterprise", some 999⟩ "https://x"
    rfl rfl (by decide) rfl (by decide)

/-- C6 (counterexample): with no hosting credential, the 200 body's final
live URL is the internally-routed website URL `<app>/websites/<slug>`, which
differs from the separately returned preview URL `<app>/preview/<slug>`, so
the live URL does not equal the preview URL. -/
theorem claimC6_counterexample :
    (POSTgenerate
      { authUser := some ⟨"basic", some 0⟩, productUrl := some "https://x",
        analyzeCall := FetchOutcome.networkError, heroCall := UnsplashOutcome.noKey,
        featCall := UnsplashOutcome.noKey, testCall := UnsplashOutcome.noKey,
        modelCall := ModelCall.fail, netlifyToken := none,
        siteCall := HostCall.fetchFail, deployCall := HostCall.fetchFail,
        dbInsertOk := true, dbIncOk := true, now := 0, appUrl := none,
        newId := "i" }).1 =
      PostResponse.created
        ⟨"i", "premium-product-0", "Premium Product",
          "An amazing product that delivers exceptional value and results.",
          "https://affilify.eu/websites/premium-product-0",
          "https://affilify.eu/preview/premium-product-0", none, none⟩
        2 "local" "affilify"
    ∧ ("https://affilify.eu/websites/premium-product-0" : String) ≠
        "https://affilify.eu/preview/premium-product-0" := by
  decide

/-- C6 (amended): with no hosting credential, `deployToNetlify` returns
absent regardless of the hosting-call outcomes, and the pipeline's final live
URL is the internally-routed website URL built from the slug
(`<app>/websites/<slug>`), while the response's preview URL is the distinct
`<app>/preview/<slug>`; the deployment fields of the body are null/"local". -/
theorem claimC6_amended :
    (∀ (html name : String) (sc : HostCall SiteData) (dc : HostCall DeployData),
        deployToNetlify html name none sc dc = none)
    ∧ ∀ (w : PipelineWorld) (user : UserData) (url : String),
        w.authUser = some user → w.productUrl = some url → url ≠ "" →
        user.websiteCount.getD 0 < (getPlanLimits user.plan).websites →
        w.netlifyToken = none → w.dbInsertOk = true → w.dbIncOk = true →
        (POSTgenerate w).1 =
          PostResponse.created
            { id := w.newId
              slug := makeSlug (analyzeProductURL url w.analyzeCall).title w.now
              title := (analyzeProductURL url w.analyzeCall).title
              description := (analyzeProductURL url w.analyzeCall).description
              url := jsOr (w.appUrl.getD "") "https://affilify.eu" ++ "/websites/" ++
                makeSlug (analyzeProductURL url w.analyzeCall).title w.now
              previewUrl := jsOr (w.appUrl.getD "") "https://affilify.eu" ++ "/preview/" ++
                makeSlug (analyzeProductURL url w.analyzeCall).title w.now
              netlifyUrl := none
              adminUrl := none }
            ((getPlanLimits user.plan).websites - user.websiteCount.getD 0 - 1)
            "local" "affilify" := by
  refine ⟨fun html name sc dc => rfl, ?_⟩
  intro w user url h1 h2 h3 hlt hnet hins hinc
  have hq : ¬ user.websiteCount.getD 0 ≥ (getPlanLimits user.plan).websites := by omega
  rw [POSTgenerate_success h1 h2 h3 hq hins hinc]
  simp [hnet, deployToNetlify, jsOrNull, jsOr]

/-- C6 witness: a concrete admitted request without a hosting credential gets
the `/websites/<slug>` live URL. -/
theorem claimC6_amended_witness :
    (POSTgenerate
      { authUser := some ⟨"basic", some 0⟩, productUrl := some "https://x",
        analyzeCall := FetchOutcome.networkError, heroCall := UnsplashOutcome.noKey,
        featCall := UnsplashOutcome.noKey, testCall := UnsplashOutcome.noKey,
        modelCall := ModelCall.fail, netlifyToken := none,
        siteCall := HostCall.fetchFail, deployCall := HostCall.fetchFail,
        dbInsertOk := true, dbIncOk := true, now := 5, appUrl := none,
        newId := "w" }).1 =
      PostResponse.created
        { id := "w"
          slug := makeSlug (analyzeProductURL "https://x" FetchOutcome.networkError).title 5
          title := (analyzeProductURL "https://x" FetchOutcome.networkError).title
          description := (analyzeProductURL "https://x" FetchOutcome.networkError).description
          url := jsOr ((none : Option String).getD "") "https://affilify.eu" ++ "/websites/" ++
            makeSlug (analyzeProductURL "https://x" FetchOutcome.networkError).title 5
          previewUrl := jsOr ((none : Option String).getD "") "https://affilify.eu" ++
            "/preview/" ++
            makeSlug (analyzeProductURL "https://x" FetchOutcome.networkError).title 5
          netlifyUrl := none
          adminUrl := none }
        ((getPlanLimits "basic").websites - (some 0 : Option Nat).getD 0 - 1)
        "local" "affilify" :=
  claimC6_amended.2 _ ⟨"basic", some 0⟩ "https://x" rfl rfl (by decide) (by decide)
    rfl rfl rfl

/-- C8 (counterexample): when the website insert succeeds but the counter
increment fails, the pipeline returns 500 while the website record remains
stored and the counter is not incremented — refuting "either the record is
stored and the counter incremented, or neither change is observable". -/
theorem claimC8_counterexample :
    (POSTgenerate
      { authUser := some ⟨"basic", some 0⟩, productUrl := some "https://x",
        analyzeCall := FetchOutcome.networkError, heroCall := UnsplashOutcome.noKey,
        featCall := UnsplashOutcome.noKey, testCall := UnsplashOutcome.noKey,
        modelCall := ModelCall.fail, netlifyToken := none,
        siteCall := HostCall.fetchFail, deployCall := HostCall.fetchFail,
        dbInsertOk := true, dbIncOk := false, now := 0, appUrl := none,
        newId := "i" }).1 = PostResponse.serverError
    ∧ (POSTgenerate
      { authUser := some ⟨"basic", some 0⟩, productUrl := some "https://x",
        analyzeCall := FetchOutcome.networkError, heroCall := UnsplashOutcome.noKey,
        featCall := UnsplashOutcome.noKey, testCall := UnsplashOutcome.noKey,
        modelCall := ModelCall.fail, netlifyToken := none,
        siteCall := HostCall.fetchFail, deployCall := HostCall.fetchFail,
        dbInsertOk := true, dbIncOk := false, now := 0, appUrl := none,
        newId := "i" }).2 = ⟨true, false⟩ := by
  decide

/-- C8 (amended): a storage failure surfaces as 500; a failing insert leaves
neither change observable, but a successful insert followed by a failing
increment leaves the record stored with the counter not incremented.  The
counter — the value later quota checks read — is never incremented unless the
record was stored, and both changes land exactly on the 200 path. -/
theorem claimC8_amended (w : PipelineWorld) (user : UserData) (url : String)
    (h1 : w.authUser = some user) (h2 : w.productUrl = some url) (h3 : url ≠ "")
    (hq : user.websiteCount.getD 0 < (getPlanLimits user.plan).websites) :
    (w.dbInsertOk = false →
      POSTgenerate w = (PostResponse.serverError, ⟨false, false⟩))
    ∧ (w.dbInsertOk = true → w.dbIncOk = false →
      POSTgenerate w = (PostResponse.serverError, ⟨true, false⟩))
    ∧ ((POSTgenerate w).2.userCountIncremented = true →
      (POSTgenerate w).2.websiteInserted = true)
    ∧ (w.dbInsertOk = true → w.dbIncOk = true →
      statusOf (POSTgenerate w).1 = 200 ∧ (POSTgenerate w).2 = ⟨true, true⟩) := by
  have hq' : ¬ user.websiteCount.getD 0 ≥ (getPlanLimits user.plan).websites := by omega
  refine ⟨fun hins => POSTgenerate_insertFail h1 h2 h3 hq' hins,
    fun hins hinc => POSTgenerate_incFail h1 h2 h3 hq' hins hinc, ?_, ?_⟩
  · intro hincr
    cases hins : w.dbInsertOk with
    | false =>
      rw [POSTgenerate_insertFail h1 h2 h3 hq' hins] at hincr
      exact absurd hincr (by decide)
    | true =>
      cases hinc : w.dbIncOk with
      | false => rw [POSTgenerate_incFail h1 h2 h3 hq' hins hinc]
      | true => rw [POSTgenerate_success h1 h2 h3 hq' hins hinc]
  · intro hins hinc
    rw [POSTgenerate_success h1 h2 h3 hq' hins hinc]
    exact ⟨rfl, rfl⟩

/-- C8 witness: with both writes succeeding, the record is stored and the
counter incremented on the 200 path. -/
theorem claimC8_amended_witness :
    statusOf (POSTgenerate
      { authUser := some ⟨"basic", some 0⟩, productUrl := some "https://x",
        analyzeCall := FetchOutcome.networkError, heroCall := UnsplashOutcome.noKey,
        featCall := UnsplashOutcome.noKey, testCall := UnsplashOutcome.noKey,
        modelCall := ModelCall.fail, netlifyToken := none,
        siteCall := HostCall.fetchFail, deployCall := HostCall.fetchFail,
        dbInsertOk := true, dbIncOk := true, now := 0, appUrl := none,
        newId := "i" }).1 = 200
    ∧ (POSTgenerate
      { authUser := some ⟨"basic", some 0⟩, productUrl := some "https://x",
        analyzeCall := FetchOutcome.networkError, heroCall := UnsplashOutcome.noKey,
        featCall := UnsplashOutcome.noKey, testCall := UnsplashOutcome.noKey,
        modelCall := ModelCall.fail, netlifyToken := none,
        siteCall := HostCall.fetchFail, deployCall := HostCall.fetchFail,
        dbInsertOk := true, dbIncOk := true, now := 0, appUrl := none,
        newId := "i" }).2 = ⟨true, true⟩ :=
  (claimC8_amended _ ⟨"basic", some 0⟩ "https://x" rfl rfl (by decide)
    (by decide)).2.2.2 rfl rfl
